import Mathlib

/-!
Verification of the client-side file-intake pipeline of the ML-App frontend
(`src/frontend/src/routes/+page.svelte` and the result view's `load`).

The Svelte component's mutable bindings (`file`, `previewUrl`, `error`,
`uploading`) are embedded as an explicit state record; the browser's
object-URL registry (`URL.createObjectURL` / `URL.revokeObjectURL`) is
embedded as a set of live handle identifiers carried in the same record,
with a fresh-id counter.  Every function below is a direct translation of
the corresponding source function.
-/

namespace MLApp

/-- A browser `File` value as the component observes it: `name`, `type`
(MIME type string) and `size` in bytes. -/
structure JsFile where
  name : String
  type : String
  size : Nat
  deriving DecidableEq, Repr

/-- The component state: the four Svelte bindings touched by the intake
logic, together with the browser object-URL registry (`live` is the set of
currently live, unrevoked object URLs; `nextId` supplies fresh handles). -/
structure PageState where
  file : Option JsFile
  previewUrl : Option Nat
  error : String
  uploading : Bool
  live : List Nat
  nextId : Nat
  deriving DecidableEq, Repr

/-- Constant `MAX_SIZE_MB = 10`. -/
def MAX_SIZE_MB : Nat := 10

/-- Constant `ACCEPT = ['image/jpeg', 'image/png', 'image/webp']`. -/
def ACCEPT : List String := ["image/jpeg", "image/png", "image/webp"]

/-- Constant `maxBytes = MAX_SIZE_MB * 1024 * 1024` (computed inside
`validateAndSet`). -/
def maxBytes : Nat := MAX_SIZE_MB * 1024 * 1024

/-- The unsupported-type message: `'รองรับเฉพาะ .jpg .png .webp'`. -/
def typeErrorMsg : String := "รองรับเฉพาะ .jpg .png .webp"

/-- The oversize message: `` `ไฟล์ใหญ่เกิน ${MAX_SIZE_MB}MB` ``. -/
def sizeErrorMsg : String := "ไฟล์ใหญ่เกิน " ++ toString MAX_SIZE_MB ++ "MB"

/-- The no-file message set by `submit`: `'กรุณาเลือกไฟล์ภาพ'`. -/
def noFileMsg : String := "กรุณาเลือกไฟล์ภาพ"

/-- Model of `URL.createObjectURL(f)`: allocates a fresh live handle and returns it
together with the updated registry. -/
def createObjectURL (s : PageState) : Nat × PageState :=
  (s.nextId, { s with live := s.nextId :: s.live, nextId := s.nextId + 1 })

/-- Model of `URL.revokeObjectURL(h)`: removes `h` from the live registry. -/
def revokeObjectURL (s : PageState) (h : Nat) : PageState :=
  { s with live := s.live.filter (fun x => x ≠ h) }

/-- Function `reset()`: clears the error and the file, revokes the preview URL when
one is present, and clears it. -/
def reset (s : PageState) : PageState :=
  let s1 : PageState := { s with error := "", file := none }
  match s1.previewUrl with
  | some h => { revokeObjectURL s1 h with previewUrl := none }
  | none => { s1 with previewUrl := none }

/-- Function `validateAndSet(f)`: clears the error; returns if `f` is null; rejects
with `typeErrorMsg` when the MIME type is not in `ACCEPT`; rejects with
`sizeErrorMsg` when the size exceeds `maxBytes`; otherwise stores the file,
revokes the previous preview URL when present, and allocates a new one. -/
def validateAndSet (s : PageState) (f : Option JsFile) : PageState :=
  let s0 : PageState := { s with error := "" }
  match f with
  | none => s0
  | some f =>
    if ¬ (ACCEPT.contains f.type) then { s0 with error := typeErrorMsg }
    else if f.size > maxBytes then { s0 with error := sizeErrorMsg }
    else
      let s1 : PageState := { s0 with file := some f }
      let s2 : PageState :=
        match s1.previewUrl with
        | some h => revokeObjectURL s1 h
        | none => s1
      let hs := createObjectURL s2
      { hs.2 with previewUrl := some hs.1 }

/-- The state in which the page script starts. -/
def initState : PageState :=
  { file := none, previewUrl := none, error := "", uploading := false,
    live := [], nextId := 0 }

/-- The single-owner discipline for preview handles: the live object-URL
registry contains exactly the current `previewUrl` (or nothing when no
preview is set), and every live handle is below the fresh counter. -/
def liveInv (s : PageState) : Prop :=
  (∀ h ∈ s.live, h < s.nextId) ∧
  (match s.previewUrl with
   | none => s.live = []
   | some h => s.live = [h])

/-- Substring occurrence: `pat` occurs contiguously inside `s`. -/
def strContains (s pat : String) : Prop :=
  ∃ a b : String, s = a ++ pat ++ b

theorem string_append_empty (s : String) : s ++ "" = s := by
  cases s with
  | mk data =>
    show String.mk (data ++ []) = String.mk data
    rw [List.append_nil]

/-!
## The submission controller

`submit()` performs one `fetch`, checks `res.ok`, parses the JSON body,
builds a `URLSearchParams` query from the three response fields, and calls
`goto`; a `catch` stores the thrown error's message and a `finally` clears
the uploading flag.  The network, the JSON parser and the router are
external collaborators, so their outcomes enter the model as parameters,
and the calls made to them are recorded in an effect trace.
-/

/-- A JavaScript number as the component uses it: only its `String(·)`
rendering is ever consumed (`String(data.prob ?? '')`), so the embedding
carries exactly that rendering (e.g. the number `0.87` renders "0.87"). -/
structure JsNumber where
  str : String
  deriving DecidableEq, Repr

/-- The parsed JSON body of a 200 response, shape
`{label?: string, prob?: number, request_id?: string}`.  A field is `none`
when absent (or `null`: `??` treats the two alike). -/
structure ResponseBody where
  label : Option String
  prob : Option JsNumber
  request_id : Option String
  deriving DecidableEq, Repr

/-- Outcome of `res.json()`: a parsed body, or a thrown error message. -/
inductive JsonOutcome where
  | ok (body : ResponseBody)
  | jsonThrow (msg : String)
  deriving DecidableEq, Repr

/-- Outcome of `fetch`: a response with a status and a body outcome, or a
thrown (network-level) error message. -/
inductive FetchOutcome where
  | response (status : Nat) (json : JsonOutcome)
  | fetchThrow (msg : String)
  deriving DecidableEq, Repr

/-- Predicate `res.ok` per the Fetch specification: status in the range 200–299. -/
def respOk (status : Nat) : Bool := 200 ≤ status && status ≤ 299

/-- Effect trace of one `submit()` call: how many `fetch` calls and
`res.json()` calls were made, the URLs passed to `goto`, and the successive
values assigned to the `uploading` flag. -/
structure SubmitTrace where
  fetchCount : Nat
  parseCount : Nat
  navigations : List String
  uploadingSets : List Bool
  deriving DecidableEq, Repr

/-- UTF-8 encoding of a character, as byte values. -/
def utf8Bytes (c : Char) : List Nat :=
  let n := c.toNat
  if n < 0x80 then [n]
  else if n < 0x800 then [0xC0 + n / 64, 0x80 + n % 64]
  else if n < 0x10000 then
    [0xE0 + n / 4096, 0x80 + (n / 64) % 64, 0x80 + n % 64]
  else
    [0xF0 + n / 262144, 0x80 + (n / 4096) % 64, 0x80 + (n / 64) % 64,
     0x80 + n % 64]

/-- Upper-case hexadecimal digit. -/
def hexDigit (n : Nat) : Char :=
  if n < 10 then Char.ofNat (48 + n) else Char.ofNat (55 + n)

/-- Percent escape of one byte value. -/
def percentByte (b : Nat) : String :=
  String.mk ['%', hexDigit (b / 16), hexDigit (b % 16)]

/-- One character under `application/x-www-form-urlencoded` serialization
(the format `URLSearchParams.toString` produces): ASCII alphanumerics and
`*`, `-`, `.`, `_` pass through, space becomes `+`, everything else is
percent-escaped byte-wise. -/
def formEncodeChar (c : Char) : String :=
  if c = ' ' then "+"
  else if c.isAlphanum ∧ c.toNat < 128 then String.singleton c
  else if c = '*' ∨ c = '-' ∨ c = '.' ∨ c = '_' then String.singleton c
  else String.join ((utf8Bytes c).map percentByte)

/-- Form-url-encoding of a whole string. -/
def formEncode (s : String) : String :=
  String.join (s.data.map formEncodeChar)

/-- Serialization `new URLSearchParams(pairs).toString()`. -/
def urlSearchParamsToString (pairs : List (String × String)) : String :=
  String.intercalate "&"
    (pairs.map (fun p => formEncode p.1 ++ "=" ++ formEncode p.2))

/-- Expression `String(data.prob ?? '')`: the number's rendering when present, the
empty string when the field is absent. -/
def probString : Option JsNumber → String
  | none => ""
  | some n => n.str

/-- The key/value pairs handed to `URLSearchParams` in `submit`:
`{label: data.label ?? '', prob: String(data.prob ?? ''), id: data.request_id ?? ''}`. -/
def qPairs (body : ResponseBody) : List (String × String) :=
  [("label", body.label.getD ""),
   ("prob", probString body.prob),
   ("id", body.request_id.getD "")]

/-- Function `submit()`.  Here `outcome` is what the single `fetch` round trip does;
`gotoThrow` is `some m` when the router's `goto` throws with message `m`.
All modelled throws are `Error` values carrying a message, so the `catch`
branch `error = e?.message ?? 'อัปโหลดไม่สำเร็จ'` always stores that
message.  The `finally` branch sets `uploading = false` on every path that
entered the `try`. -/
def submit (s : PageState) (outcome : FetchOutcome) (gotoThrow : Option String) :
    PageState × SubmitTrace :=
  let s0 : PageState := { s with error := "" }
  match s0.file with
  | none =>
    ({ s0 with error := noFileMsg },
     { fetchCount := 0, parseCount := 0, navigations := [],
       uploadingSets := [] })
  | some _ =>
    let s1 : PageState := { s0 with uploading := true }
    match outcome with
    | .fetchThrow m =>
      ({ s1 with error := m, uploading := false },
       { fetchCount := 1, parseCount := 0, navigations := [],
         uploadingSets := [true, false] })
    | .response status json =>
      if respOk status = false then
        ({ s1 with error := "HTTP " ++ toString status, uploading := false },
         { fetchCount := 1, parseCount := 0, navigations := [],
           uploadingSets := [true, false] })
      else
        match json with
        | .jsonThrow m =>
          ({ s1 with error := m, uploading := false },
           { fetchCount := 1, parseCount := 1, navigations := [],
             uploadingSets := [true, false] })
        | .ok body =>
          let url := "/result?" ++ urlSearchParamsToString (qPairs body)
          match gotoThrow with
          | some m =>
            ({ s1 with error := m, uploading := false },
             { fetchCount := 1, parseCount := 1, navigations := [url],
               uploadingSets := [true, false] })
          | none =>
            ({ s1 with uploading := false },
             { fetchCount := 1, parseCount := 1, navigations := [url],
               uploadingSets := [true, false] })

/-!
## The result view's `load`

`src/frontend/src/routes/result/+page.ts` reads the navigation parameters:
```
const label = url.searchParams.get('label') ?? '';
const prob = parseFloat(url.searchParams.get('prob') ?? '0');
```
`url.searchParams` is the browser's parse of the query string that
`URLSearchParams.toString` produced; the two are inverse external APIs, so
the handoff is embedded at the level of the key/value pair list.
`searchParams.get` returns the first value bound to the key, or null
(`none`) when the key is absent.
-/

/-- Lookup `url.searchParams.get(k)`. -/
def getParam (ps : List (String × String)) (k : String) : Option String :=
  (ps.find? (fun p => p.1 = k)).map (fun p => p.2)

/-- Result of JavaScript `parseFloat`: `NaN`, or a finite value.  Doubles
are modelled as exact decimals (ℚ); the `Infinity` literal and double
rounding are outside the fragment this page exercises. -/
inductive ParseFloatResult where
  | nan
  | num (v : ℚ)
  deriving DecidableEq, Repr

/-- Longest leading run of decimal digits. -/
def takeDigits : List Char → List Char × List Char
  | [] => ([], [])
  | c :: cs =>
    if c.isDigit then
      let dr := takeDigits cs
      (c :: dr.1, dr.2)
    else ([], c :: cs)

/-- Value of a digit string. -/
def digitsVal (ds : List Char) : Nat :=
  ds.foldl (fun a c => a * 10 + (c.toNat - 48)) 0

/-- Exponent part of a float literal (`e`/`E`, optional sign, digits);
`0` when absent or malformed, matching `parseFloat`'s longest-valid-prefix
rule. -/
def expPart : List Char → Int
  | 'e' :: r => expDigits r
  | 'E' :: r => expDigits r
  | _ => 0
where
  expDigits (r : List Char) : Int :=
    let sr : Int × List Char :=
      match r with
      | '-' :: t => (-1, t)
      | '+' :: t => (1, t)
      | t => (1, t)
    let ds := (takeDigits sr.2).1
    if ds = [] then 0 else sr.1 * (digitsVal ds : Int)

/-- JavaScript `parseFloat`: skip leading whitespace, optional sign,
digits, optional `.digits`, optional exponent; `NaN` when no digit was
consumed (in particular `parseFloat('') = NaN`). -/
def parseFloat (s : String) : ParseFloatResult :=
  let cs := s.data.dropWhile (fun c => c = ' ' ∨ c = '\t' ∨ c = '\n' ∨ c = '\r')
  let sgn : ℚ × List Char :=
    match cs with
    | '-' :: r => (-1, r)
    | '+' :: r => (1, r)
    | r => (1, r)
  let ip := takeDigits sgn.2
  let fp : List Char × List Char :=
    match ip.2 with
    | '.' :: r => takeDigits r
    | _ => ([], ip.2)
  if ip.1 = [] ∧ fp.1 = [] then .nan
  else
    let mant : ℚ :=
      (digitsVal ip.1 : ℚ) + (digitsVal fp.1 : ℚ) / ((10 : ℚ) ^ fp.1.length)
    let ex := expPart fp.2
    let v := sgn.1 * mant
    if 0 ≤ ex then .num (v * (10 : ℚ) ^ ex.toNat)
    else .num (v / (10 : ℚ) ^ (-ex).toNat)

/-- The result view's `load`, applied to the parsed search parameters:
returns `{label, prob}`. -/
def load (ps : List (String × String)) : String × ParseFloatResult :=
  ((getParam ps "label").getD "",
   parseFloat ((getParam ps "prob").getD "0"))

/-!
## Concrete fixtures used by witnesses and counterexamples
-/

/-- A file of an unsupported MIME type. -/
def gifFile : JsFile := { name := "anim.gif", type := "image/gif", size := 1024 }

/-- An unsupported-type file that is also oversized. -/
def oversizedGif : JsFile :=
  { name := "big.gif", type := "image/gif", size := maxBytes + 1 }

/-- A supported-type file that is oversized (12 MiB JPEG). -/
def oversizedJpeg : JsFile :=
  { name := "big.jpg", type := "image/jpeg", size := 12 * 1024 * 1024 }

/-- A valid 2 MiB PNG. -/
def pngFile : JsFile :=
  { name := "wall.png", type := "image/png", size := 2 * 1024 * 1024 }

/-- The state after validating `pngFile` from the initial state: a file and
its preview are set, nothing is uploading. -/
def readyState : PageState := validateAndSet initState (some pngFile)

/-- The simulated success body of the round-trip property. -/
def simBody : ResponseBody :=
  { label := some "crack", prob := some ⟨"0.87"⟩, request_id := some "abc123" }

/-- A success body whose `prob` field is missing. -/
def missingProbBody : ResponseBody :=
  { label := some "crack", prob := none, request_id := some "abc123" }

/-!
## Claims
-/

/-- C1: a candidate whose MIME type is not among
`image/jpeg`, `image/png`, `image/webp` is rejected by `validateAndSet`:
the error message is set to the non-empty unsupported-type message, which
names the accepted extensions `.jpg`, `.png`, `.webp`; the candidate file
binding is not updated (in particular it stays unset when it was unset) and
the preview handle is left unchanged, with no new preview allocated. -/
theorem validateAndSet_rejects_bad_type (s : PageState) (f : JsFile)
    (h : f.type ∉ ACCEPT) :
    (validateAndSet s (some f)).error = typeErrorMsg ∧
    typeErrorMsg ≠ "" ∧
    strContains typeErrorMsg ".jpg" ∧
    strContains typeErrorMsg ".png" ∧
    strContains typeErrorMsg ".webp" ∧
    (validateAndSet s (some f)).file = s.file ∧
    (validateAndSet s (some f)).previewUrl = s.previewUrl ∧
    (validateAndSet s (some f)).live = s.live ∧
    (validateAndSet s (some f)).nextId = s.nextId := by
  refine ⟨?_, by decide, ?_, ?_, ?_, ?_, ?_, ?_, ?_⟩ <;>
    first
      | simp [validateAndSet, h]
      | exact ⟨"รองรับเฉพาะ ", " .png .webp", by decide⟩
      | exact ⟨"รองรับเฉพาะ .jpg ", " .webp", by decide⟩
      | exact ⟨"รองรับเฉพาะ .jpg .png ", "", by decide⟩

/-- C1 witness: the rejection at a concrete `.gif` candidate from the
initial state. -/
theorem validateAndSet_rejects_bad_type_witness :
    (validateAndSet initState (some gifFile)).error = typeErrorMsg ∧
    (validateAndSet initState (some gifFile)).file = none :=
  ⟨(validateAndSet_rejects_bad_type initState gifFile (by decide)).1,
   (validateAndSet_rejects_bad_type initState gifFile (by decide)).2.2.2.2.2.1⟩

/-- C2 counterexample: the claim promises an error message stating the
configured limit in MB for every oversized candidate regardless of MIME
type, but the type check runs first, so an oversized `.gif` gets the
unsupported-type message: that message is not the size message and contains
no digit at all, hence cannot state the 10 MB limit. -/
theorem oversized_gif_gets_type_message :
    oversizedGif.size > maxBytes ∧
    (validateAndSet initState (some oversizedGif)).error = typeErrorMsg ∧
    (validateAndSet initState (some oversizedGif)).error ≠ sizeErrorMsg ∧
    (validateAndSet initState (some oversizedGif)).error.data.all
      (fun c => !c.isDigit) = true ∧
    sizeErrorMsg.data.any (fun c => c.isDigit) = true := by
  refine ⟨by decide, by decide, by decide, by decide, by decide⟩

/-- C2 amended: every oversized candidate is rejected — the error message
is set non-empty and neither the candidate file nor the preview handle is
updated — regardless of MIME type; and when the MIME type is one of the
accepted ones, the message is the size message, which states the configured
limit `10MB`. -/
theorem validateAndSet_rejects_oversize (s : PageState) (f : JsFile)
    (hsz : f.size > maxBytes) :
    (validateAndSet s (some f)).error ≠ "" ∧
    (validateAndSet s (some f)).file = s.file ∧
    (validateAndSet s (some f)).previewUrl = s.previewUrl ∧
    (validateAndSet s (some f)).live = s.live ∧
    (validateAndSet s (some f)).nextId = s.nextId ∧
    (f.type ∈ ACCEPT →
      ((validateAndSet s (some f)).error = sizeErrorMsg ∧
       strContains sizeErrorMsg "10MB")) := by
  by_cases hty : f.type ∈ ACCEPT
  · have he : (validateAndSet s (some f)).error = sizeErrorMsg := by
      simp [validateAndSet, hty, hsz]
    refine ⟨by rw [he]; decide, ?_, ?_, ?_, ?_,
            fun _ => ⟨he, "ไฟล์ใหญ่เกิน ", "", by decide⟩⟩ <;>
      simp [validateAndSet, hty, hsz]
  · have he : (validateAndSet s (some f)).error = typeErrorMsg := by
      simp [validateAndSet, hty]
    refine ⟨by rw [he]; decide, ?_, ?_, ?_, ?_, fun hmem => absurd hmem hty⟩ <;>
      simp [validateAndSet, hty]

/-- C2 witness: the amended rejection at a concrete oversized JPEG from
the initial state. -/
theorem validateAndSet_rejects_oversize_witness :
    (validateAndSet initState (some oversizedJpeg)).error ≠ "" ∧
    (validateAndSet initState (some oversizedJpeg)).file = none :=
  ⟨(validateAndSet_rejects_oversize initState oversizedJpeg (by decide)).1,
   (validateAndSet_rejects_oversize initState oversizedJpeg (by decide)).2.1⟩

/-- C3: the single-live-handle discipline.  Starting from any state
satisfying `liveInv` (the live object-URL registry holds exactly the
current preview handle), every `validateAndSet` call preserves the
invariant; an accepted candidate ends with exactly one live handle — the
freshly allocated one — and the previously live handle (when there was
one) has been revoked and is no longer live; and `reset` revokes and
clears the handle, preserving the invariant. -/
theorem preview_single_live_handle (s : PageState) (hinv : liveInv s) :
    (∀ g : Option JsFile, liveInv (validateAndSet s g)) ∧
    (∀ f : JsFile, f.type ∈ ACCEPT → f.size ≤ maxBytes →
      ((validateAndSet s (some f)).live = [s.nextId] ∧
       (validateAndSet s (some f)).previewUrl = some s.nextId ∧
       (∀ h0, s.previewUrl = some h0 →
          h0 ∉ (validateAndSet s (some f)).live))) ∧
    liveInv (reset s) ∧ (reset s).live = [] ∧ (reset s).previewUrl = none := by
  have hinv_of : ∀ t : PageState, t.live = s.live → t.previewUrl = s.previewUrl →
      t.nextId = s.nextId → liveInv t := by
    intro t h1 h2 h3
    unfold liveInv at hinv ⊢
    rw [h1, h2, h3]
    exact hinv
  obtain ⟨hfresh, hmatch⟩ := hinv
  have haccept : ∀ f : JsFile, f.type ∈ ACCEPT → f.size ≤ maxBytes →
      (validateAndSet s (some f)).live = [s.nextId] ∧
      (validateAndSet s (some f)).previewUrl = some s.nextId ∧
      (validateAndSet s (some f)).nextId = s.nextId + 1 := by
    intro f hty hsz
    have hsz' : ¬ (f.size > maxBytes) := not_lt.mpr hsz
    cases hp : s.previewUrl with
    | none =>
      have hl : s.live = [] := by rw [hp] at hmatch; exact hmatch
      simp [validateAndSet, hty, hsz', hp, createObjectURL, hl]
    | some h0 =>
      have hl : s.live = [h0] := by rw [hp] at hmatch; exact hmatch
      simp [validateAndSet, hty, hsz', hp, createObjectURL, revokeObjectURL, hl]
  refine ⟨?_, fun f hty hsz => ⟨(haccept f hty hsz).1,
            (haccept f hty hsz).2.1, ?_⟩, ?_, ?_, ?_⟩
  · intro g
    match g with
    | none =>
      exact hinv_of _ (by simp [validateAndSet]) (by simp [validateAndSet])
        (by simp [validateAndSet])
    | some f =>
      by_cases hty : f.type ∈ ACCEPT
      · by_cases hsz : f.size > maxBytes
        · exact hinv_of _ (by simp [validateAndSet, hty, hsz])
            (by simp [validateAndSet, hty, hsz])
            (by simp [validateAndSet, hty, hsz])
        · obtain ⟨hl, hu, hn⟩ := haccept f hty (not_lt.mp hsz)
          refine ⟨?_, ?_⟩
          · rw [hl, hn]
            simp
          · rw [hu, hl]
      · exact hinv_of _ (by simp [validateAndSet, hty])
          (by simp [validateAndSet, hty]) (by simp [validateAndSet, hty])
  · intro h0 hp0
    have hl : s.live = [h0] := by rw [hp0] at hmatch; exact hmatch
    have hlt : h0 < s.nextId := hfresh h0 (by rw [hl]; exact List.mem_singleton.mpr rfl)
    rw [(haccept f hty hsz).1]
    simp
    omega
  · cases hp : s.previewUrl with
    | none =>
      have hl : s.live = [] := by rw [hp] at hmatch; exact hmatch
      refine ⟨?_, ?_⟩ <;> simp [reset, hp, hl]
    | some h0 =>
      have hl : s.live = [h0] := by rw [hp] at hmatch; exact hmatch
      refine ⟨?_, ?_⟩ <;> simp [reset, revokeObjectURL, hp, hl]
  · cases hp : s.previewUrl with
    | none =>
      have hl : s.live = [] := by rw [hp] at hmatch; exact hmatch
      simp [reset, hp, hl]
    | some h0 =>
      have hl : s.live = [h0] := by rw [hp] at hmatch; exact hmatch
      simp [reset, revokeObjectURL, hp, hl]
  · cases hp : s.previewUrl <;> simp [reset, hp]

/-- C3 witness: validating a concrete valid PNG from the initial state
yields exactly one live handle, and resetting clears it. -/
theorem preview_single_live_handle_witness :
    (validateAndSet initState (some pngFile)).live = [initState.nextId] ∧
    (reset initState).live = [] :=
  ⟨((preview_single_live_handle initState ⟨by simp [initState], by simp [initState]⟩).2.1
      pngFile (by decide) (by decide)).1,
   (preview_single_live_handle initState ⟨by simp [initState], by simp [initState]⟩).2.2.2.1⟩

/-- C4: with a candidate file set and the controller idle, `submit` assigns
the uploading flag the values `true` then `false` — so the observed state
sequence is Idle, Uploading, Idle, exactly one round trip — and the final
state is idle, for every fetch outcome (success, non-success status, thrown
fetch or parse error) and whether or not navigation throws. -/
theorem submit_uploading_roundtrip (s : PageState) (o : FetchOutcome)
    (g : Option String) (hf : s.file.isSome = true) (hu : s.uploading = false) :
    s.uploading :: (submit s o g).2.uploadingSets = [false, true, false] ∧
    (submit s o g).1.uploading = false := by
  cases hs : s.file with
  | none => rw [hs] at hf; simp at hf
  | some f =>
    rw [hu]
    cases o with
    | fetchThrow m => simp [submit, hs]
    | response st j =>
      by_cases hok : respOk st = false
      · simp [submit, hs, hok]
      · cases j with
        | jsonThrow m => simp [submit, hs, hok]
        | ok body => cases g <;> simp [submit, hs, hok]

/-- C4 witness: a concrete submission from `readyState` with an HTTP 200
response and a working router. -/
theorem submit_uploading_roundtrip_witness :
    readyState.uploading ::
      (submit readyState (.response 200 (.ok simBody)) none).2.uploadingSets
      = [false, true, false] :=
  (submit_uploading_roundtrip readyState (.response 200 (.ok simBody)) none
    (by decide) (by decide)).1

/-- C5: with no candidate file set, `submit` stores the non-empty
no-file-selected message, makes no network call, assigns nothing to the
uploading flag, and leaves it exactly as it was — the state never moves
away from Idle. -/
theorem submit_no_file (s : PageState) (o : FetchOutcome) (g : Option String)
    (hf : s.file = none) :
    (submit s o g).1.error = noFileMsg ∧
    noFileMsg ≠ "" ∧
    (submit s o g).2.fetchCount = 0 ∧
    (submit s o g).2.uploadingSets = [] ∧
    (submit s o g).1.uploading = s.uploading := by
  refine ⟨?_, by decide, ?_, ?_, ?_⟩ <;> simp [submit, hf]

/-- C5 witness: submitting from the initial state, where no file is set. -/
theorem submit_no_file_witness :
    (submit initState (.response 200 (.ok simBody)) none).1.error = noFileMsg ∧
    (submit initState (.response 200 (.ok simBody)) none).2.fetchCount = 0 :=
  ⟨(submit_no_file initState (.response 200 (.ok simBody)) none rfl).1,
   (submit_no_file initState (.response 200 (.ok simBody)) none rfl).2.2.1⟩

/-- C6: on a non-success HTTP status, `submit` sets the error message to
the non-empty string `HTTP <status>` — which contains the status — never
calls `res.json()` (the body is not parsed) and performs no navigation. -/
theorem submit_http_error (s : PageState) (status : Nat) (j : JsonOutcome)
    (g : Option String) (hf : s.file.isSome = true)
    (hbad : respOk status = false) :
    (submit s (.response status j) g).1.error = "HTTP " ++ toString status ∧
    (submit s (.response status j) g).1.error ≠ "" ∧
    strContains (submit s (.response status j) g).1.error (toString status) ∧
    (submit s (.response status j) g).2.parseCount = 0 ∧
    (submit s (.response status j) g).2.navigations = [] := by
  cases hs : s.file with
  | none => rw [hs] at hf; simp at hf
  | some f =>
    have he : (submit s (.response status j) g).1.error
        = "HTTP " ++ toString status := by
      simp [submit, hs, hbad]
    refine ⟨he, ?_, ?_, ?_, ?_⟩
    · rw [he]
      intro hcon
      have := congrArg String.data hcon
      rw [String.data_append] at this
      simp at this
    · rw [he]
      exact ⟨"HTTP ", "", (string_append_empty _).symm⟩
    · simp [submit, hs, hbad]
    · simp [submit, hs, hbad]

/-- C6 witness: a concrete HTTP 500 response from `readyState`. -/
theorem submit_http_error_witness :
    (submit readyState (.response 500 (.ok simBody)) none).1.error
      = "HTTP " ++ toString 500 ∧
    (submit readyState (.response 500 (.ok simBody)) none).2.navigations = [] :=
  ⟨(submit_http_error readyState 500 (.ok simBody) none (by decide) (by decide)).1,
   (submit_http_error readyState 500 (.ok simBody) none (by decide) (by decide)).2.2.2.2⟩

/-- C7: on the simulated success response
`{label: "crack", prob: 0.87, request_id: "abc123"}` (the number `0.87`
renders "0.87"), `submit` performs exactly one navigation, whose query
string is exactly `label=crack&prob=0.87&id=abc123`. -/
theorem submit_roundtrip_query :
    (submit readyState (.response 200 (.ok simBody)) none).2.navigations
      = ["/result?label=crack&prob=0.87&id=abc123"] := by
  decide

/-- C8: for every 200 response body, whatever combination of the fields
`label`, `prob`, `request_id` is missing, `submit` still performs exactly
one navigation, and each missing field contributes the empty-string
default to the query parameters (`label`, `prob` and `id` all default to
the empty string, `prob` via `String('') = ''`). -/
theorem submit_defaults_on_missing_fields (s : PageState)
    (lab : Option String) (pr : Option JsNumber) (rid : Option String)
    (g : Option String) (hf : s.file.isSome = true) :
    (submit s (.response 200 (.ok ⟨lab, pr, rid⟩)) g).2.navigations.length = 1 ∧
    (lab = none → getParam (qPairs ⟨lab, pr, rid⟩) "label" = some "") ∧
    (pr = none → getParam (qPairs ⟨lab, pr, rid⟩) "prob" = some "") ∧
    (rid = none → getParam (qPairs ⟨lab, pr, rid⟩) "id" = some "") := by
  cases hs : s.file with
  | none => rw [hs] at hf; simp at hf
  | some f =>
    refine ⟨?_, ?_, ?_, ?_⟩
    · cases g <;> simp [submit, hs, respOk]
    · intro h
      subst h
      simp [qPairs, getParam]
    · intro h
      subst h
      simp [qPairs, getParam, probString]
    · intro h
      subst h
      simp [qPairs, getParam]

/-- C8 witness: a 200 response with all three fields missing still
navigates once, with empty-string parameter values. -/
theorem submit_defaults_on_missing_fields_witness :
    (submit readyState (.response 200 (.ok ⟨none, none, none⟩)) none).2.navigations.length = 1 ∧
    getParam (qPairs ⟨none, none, none⟩) "prob" = some "" :=
  ⟨(submit_defaults_on_missing_fields readyState none none none none (by decide)).1,
   (submit_defaults_on_missing_fields readyState none none none none (by decide)).2.2.1 rfl⟩

/-- Helper fact: the character `0` is a decimal digit. -/
theorem char_zero_isDigit : '0'.isDigit = true := rfl

/-- Helper fact: the code of the character `0`. -/
theorem char_zero_toNat : '0'.toNat = 48 := rfl

/-- C9, evaluated on the code: when the 200 response is missing `prob`,
the navigation parameters carry `prob = ""`; at load time
`url.searchParams.get('prob')` therefore returns the empty string — not
null, so the `?? '0'` default does not apply — and `parseFloat('')` is
`NaN`, not `0`.  The `'0'` default produces `0` only when the parameter is
entirely absent, which never happens for controller-produced URLs. -/
theorem result_load_nan_on_missing_prob :
    (submit readyState (.response 200 (.ok missingProbBody)) none).2.navigations
      = ["/result?label=crack&prob=&id=abc123"] ∧
    getParam (qPairs missingProbBody) "prob" = some "" ∧
    (load (qPairs missingProbBody)).2 = ParseFloatResult.nan ∧
    parseFloat "0" = ParseFloatResult.num 0 ∧
    ParseFloatResult.nan ≠ ParseFloatResult.num 0 := by
  refine ⟨by decide, by decide, by decide, ?_, by decide⟩
  norm_num +decide [parseFloat, takeDigits, digitsVal, expPart, List.dropWhile,
    char_zero_isDigit, char_zero_toNat]

/-- C10: `submit` never modifies the candidate file, the preview handle or
the object-URL registry on any execution path — success, non-success
status, thrown fetch/parse/navigation errors, or the no-file early return;
only the error message and uploading flag can change. -/
theorem submit_preserves_file_and_preview (s : PageState) (o : FetchOutcome)
    (g : Option String) :
    (submit s o g).1.file = s.file ∧
    (submit s o g).1.previewUrl = s.previewUrl ∧
    (submit s o g).1.live = s.live ∧
    (submit s o g).1.nextId = s.nextId := by
  cases hs : s.file with
  | none => simp [submit, hs]
  | some f =>
    cases o with
    | fetchThrow m => simp [submit, hs]
    | response st j =>
      by_cases hok : respOk st = false
      · simp [submit, hs, hok]
      · cases j with
        | jsonThrow m => simp [submit, hs, hok]
        | ok body => cases g <;> simp [submit, hs, hok]

end MLApp
